import Mathlib

set_option linter.unusedVariables false

/-!
Shallow embedding of src/business_search_tool.py (class BusinessDatasetSearcher).

External effects are made explicit:
- every HTTP exchange is a parameter of type Except String Resp (a transport
  or parsing exception is the .error case, carrying the exception message);
- each adapter returns its result together with the number of network calls
  it issued, so the zero-network-call claims are directly statable;
- time.sleep and logging are pure no-ops and are omitted;
- the timestamp fields (datetime.now) are omitted: no claim mentions them.

Python dict fields read with .get(...) are modelled as Option fields; .get
with a default becomes Option.getD.
-/

namespace BusinessSearchTool

/-- Abstract source classes, as named by the specification. -/
inductive SourceClass
  | EntityRegistry
  | SpendingRecords
  | PublicFilings
  | SmallBusinessDatasets
deriving DecidableEq, Repr

/-- Abstract envelope statuses, as named by the specification. -/
inductive SpecStatus
  | Found
  | NotFound
  | RequiresCredential
  | RequiresOfflineProcessing
  | Error
deriving DecidableEq, Repr

/-- Maps the concrete source strings appearing in the code (both the adapter-level
display names and the dispatch-level dataset keys) to spec source classes. -/
def sourceClass : String → Option SourceClass
  | "SAM.gov" => some .EntityRegistry
  | "sam_gov" => some .EntityRegistry
  | "USAspending.gov" => some .SpendingRecords
  | "usaspending" => some .SpendingRecords
  | "SEC EDGAR" => some .PublicFilings
  | "edgar_sec" => some .PublicFilings
  | "SBA Data" => some .SmallBusinessDatasets
  | "sba_data" => some .SmallBusinessDatasets
  | _ => none

/-- Maps the concrete status strings used by the code to spec statuses. -/
def statusClass : String → Option SpecStatus
  | "found" => some .Found
  | "not_found" => some .NotFound
  | "API key required" => some .RequiresCredential
  | "requires_csv_processing" => some .RequiresOfflineProcessing
  | "error" => some .Error
  | _ => none

/-- One award entry as emitted by search_usaspending into its awards list. -/
structure AwardOut where
  award_id : Option String
  recipient_name : Option String
  amount : Int
  type : Option String
  start_date : Option String
deriving DecidableEq, Repr

/-- One match entry as emitted by search_edgar_sec into its matches list. -/
structure MatchEntry where
  cik : Option Nat
  ticker : String
  company_name : Option String
  match_score : Nat
deriving DecidableEq, Repr

/-- The source-specific payload stored in the data field of a result dict.
On error the code stores str(e), a plain string, in the same data field. -/
inductive Payload
  | samData (uei cage_code legal_name registration_status : Option String)
      (naics_codes : List (Option String))
  | usaData (total_awards : Nat) (total_amount : Int) (awards : List AwardOut)
  | edgarData (matches_found : Nat) (best_match : MatchEntry)
      (all_matches : List MatchEntry)
  | sbaData (note : String) (datasets_to_check : List String)
  | errText (msg : String)
deriving DecidableEq, Repr

/-- The per-source result dict: keys source, status, data. -/
structure SearchResult where
  source : String
  status : String
  data : Option Payload
deriving DecidableEq, Repr

/-- The location_info dict built by search_business_across_datasets. -/
structure LocationInfo where
  city : Option String
  state : Option String
  zip : Option String
deriving DecidableEq, Repr

/-- One input row (a dict produced by df.to_dict of records). -/
structure BusinessInfo where
  business_name : Option String
  city : Option String
  state : Option String
  zip : Option String
deriving DecidableEq, Repr

/-! ### SAM.gov adapter (search_sam_gov) -/

/-- The first entity of entityData, with the nested fields the code extracts. -/
structure SamEntity where
  ueiSAM : Option String
  cageCode : Option String
  legalBusinessName : Option String
  registrationStatus : Option String
  primaryNaicsCodes : List (Option String)
deriving DecidableEq, Repr

/-- Parsed SAM.gov HTTP response: status code plus entityData list. -/
structure SamResp where
  status_code : Nat
  entityData : List SamEntity
deriving DecidableEq, Repr

/-- search_sam_gov. samApiKey models os.getenv of SAM API KEY (none when unset);
the code defaults it to the empty string and tests truthiness. Returns the
result dict together with the number of network calls issued. -/
def search_sam_gov (samApiKey : Option String) (business_name : String)
    (location_info : Option LocationInfo) (http : Except String SamResp) :
    SearchResult × Nat :=
  let api_key := samApiKey.getD ""
  if api_key = "" then
    ({ source := "SAM.gov", status := "API key required", data := none }, 0)
  else
    match http with
    | .error e => ({ source := "SAM.gov", status := "error", data := some (.errText e) }, 1)
    | .ok resp =>
      if resp.status_code = 200 then
        match resp.entityData with
        | [] => ({ source := "SAM.gov", status := "not_found", data := none }, 1)
        | entity :: _ =>
          ({ source := "SAM.gov", status := "found",
             data := some (.samData entity.ueiSAM entity.cageCode
               entity.legalBusinessName entity.registrationStatus
               entity.primaryNaicsCodes) }, 1)
      else
        ({ source := "SAM.gov", status := "not_found", data := none }, 1)

/-! ### USAspending adapter (search_usaspending) -/

/-- The outbound request payload built by search_usaspending. -/
structure UsaRequest where
  recipient_search_text : List String
  award_type_codes : List String
  fields : List String
  sort : String
  order : String
  limit : Nat
deriving DecidableEq, Repr

def usaspendingRequest (business_name : String) : UsaRequest :=
  { recipient_search_text := [business_name],
    award_type_codes := ["A", "B", "C", "D"],
    fields := ["Award ID", "Recipient Name", "Award Amount", "Award Type",
      "Period of Performance Start Date"],
    sort := "Award Amount",
    order := "desc",
    limit := 10 }

/-- One award record in the USAspending response; each field is read with
dict.get, the amount with default 0. -/
structure UsaAward where
  awardId : Option String
  recipientName : Option String
  awardAmount : Option Int
  awardType : Option String
  startDate : Option String
deriving DecidableEq, Repr

/-- Parsed USAspending HTTP response. -/
structure UsaResp where
  status_code : Nat
  results : List UsaAward
deriving DecidableEq, Repr

/-- The per-award dict the loop of search_usaspending appends to awards. -/
def mkAwardOut (a : UsaAward) : AwardOut :=
  { award_id := a.awardId,
    recipient_name := a.recipientName,
    amount := a.awardAmount.getD 0,
    type := a.awardType,
    start_date := a.startDate }

/-- search_usaspending, returning the result dict and the network call count. -/
def search_usaspending (business_name : String) (http : Except String UsaResp) :
    SearchResult × Nat :=
  match http with
  | .error e =>
    ({ source := "USAspending.gov", status := "error", data := some (.errText e) }, 1)
  | .ok resp =>
    if resp.status_code = 200 then
      match resp.results with
      | [] => ({ source := "USAspending.gov", status := "not_found", data := none }, 1)
      | _ :: _ =>
        let awards := resp.results.map mkAwardOut
        let total_amount := (resp.results.map (fun a => a.awardAmount.getD 0)).sum
        ({ source := "USAspending.gov", status := "found",
           data := some (.usaData awards.length total_amount (awards.take 5)) }, 1)
    else
      ({ source := "USAspending.gov", status := "not_found", data := none }, 1)

/-! ### SEC EDGAR adapter (search_edgar_sec) -/

/-- One company_data entry of the company tickers json; fields are read with
dict.get (title and ticker with default empty string, cik_str without). -/
structure Company where
  title : Option String
  ticker : Option String
  cik_str : Option Nat
deriving DecidableEq, Repr

/-- Parsed SEC EDGAR HTTP response: the full issuer directory in iteration
order of the json dict. -/
structure EdgarResp where
  status_code : Nat
  companies : List Company
deriving DecidableEq, Repr

/-- Python lowercasing of a string, per character (ASCII model of str.lower). -/
def lowerChars (s : List Char) : List Char := s.map Char.toLower

/-- Whether the first list is a leading segment of the second
(the inner loop of Python substring containment). -/
def leadsChars : List Char → List Char → Bool
  | [], _ => true
  | _ :: _, [] => false
  | a :: as, b :: bs => a == b && leadsChars as bs

/-- Python substring containment: needle in hay. -/
def pyIn (needle hay : List Char) : Bool :=
  match hay with
  | [] => needle.isEmpty
  | _ :: rest => leadsChars needle hay || pyIn needle rest

/-- Python str.split with no argument: split on whitespace runs, no empty
tokens. The first argument accumulates the current word reversed. -/
def wordsAux : List Char → List Char → List (List Char)
  | acc, [] => if acc.isEmpty then [] else [acc.reverse]
  | acc, c :: rest =>
    if c.isWhitespace then
      if acc.isEmpty then wordsAux [] rest
      else acc.reverse :: wordsAux [] rest
    else wordsAux (c :: acc) rest

def pySplit (s : List Char) : List (List Char) := wordsAux [] s

/-- Size of the intersection of the two token multisets viewed as sets:
Python len of set(xs) intersected with set(ys). -/
def interSize (xs ys : List (List Char)) : Nat :=
  (xs.dedup.filter (fun w => ys.contains w)).length

/-- The match condition of search_edgar_sec: case-insensitive substring
containment in either direction (both arguments are already lowercased). -/
def edgarCond (search_name company_name : List Char) : Bool :=
  pyIn search_name company_name || pyIn company_name search_name

/-- The match dict appended for one matching company (search_name is already
lowercased). -/
def mkMatchEntry (search_name : List Char) (c : Company) : MatchEntry :=
  let company_name := lowerChars (c.title.getD "").data
  { cik := c.cik_str,
    ticker := c.ticker.getD "",
    company_name := c.title,
    match_score := interSize (pySplit search_name) (pySplit company_name) }

/-- The matches list built by the loop of search_edgar_sec. -/
def edgarMatches (business_name : String) (companies : List Company) :
    List MatchEntry :=
  let search_name := lowerChars business_name.data
  companies.filterMap (fun c =>
    let company_name := lowerChars (c.title.getD "").data
    if edgarCond search_name company_name then some (mkMatchEntry search_name c)
    else none)

/-- Python list.sort with reverse true on match_score: a stable descending
sort by score (modelled by the stable mergeSort of the core library). -/
def sortMatches (ms : List MatchEntry) : List MatchEntry :=
  ms.mergeSort (fun a b => decide (b.match_score ≤ a.match_score))

/-- search_edgar_sec, returning the result dict and the network call count.
The Python code tests the unsorted matches list for emptiness and then sorts
it in place before reading it; sorting preserves emptiness and length, so the
model matches on the sorted list directly. -/
def search_edgar_sec (business_name : String) (http : Except String EdgarResp) :
    SearchResult × Nat :=
  match http with
  | .error e =>
    ({ source := "SEC EDGAR", status := "error", data := some (.errText e) }, 1)
  | .ok resp =>
    if resp.status_code = 200 then
      match sortMatches (edgarMatches business_name resp.companies) with
      | [] => ({ source := "SEC EDGAR", status := "not_found", data := none }, 1)
      | best :: rest =>
        ({ source := "SEC EDGAR", status := "found",
           data := some (.edgarData (best :: rest).length best
             ((best :: rest).take 3)) }, 1)
    else
      ({ source := "SEC EDGAR", status := "not_found", data := none }, 1)

/-! ### SBA adapter (search_sba_data) -/

def sbaNote : String := "SBA data requires downloading CSV files and local processing"

def sbaDatasets : List String :=
  ["PPP Loan Data",
   "8(a) Business Development",
   "HUBZone Certified Companies",
   "Women-Owned Small Business",
   "Service-Disabled Veteran-Owned"]

/-- search_sba_data: a deliberate offline stub, no network call. -/
def search_sba_data (business_name : String) (location_info : Option LocationInfo) :
    SearchResult × Nat :=
  ({ source := "SBA Data", status := "requires_csv_processing",
     data := some (.sbaData sbaNote sbaDatasets) }, 0)

/-! ### Dispatch engine (search_business_across_datasets) -/

/-- The outcome of running one adapter closure: its result dict, or the
exception it raised. -/
structure AdapterOutcomes where
  sam : Except String SearchResult
  usa : Except String SearchResult
  edgar : Except String SearchResult
  sba : Except String SearchResult

/-- The per-adapter try body of the dispatch loop: a raised exception is
converted to an error dict keyed by the dataset name. -/
def handleDispatch (dataset_name : String) : Except String SearchResult → SearchResult
  | .ok r => r
  | .error e => { source := dataset_name, status := "error", data := some (.errText e) }

/-- The dataset keys of the datasets_to_search list, in dispatch order. -/
def datasetNames : Fin 4 → String
  | 0 => "sam_gov"
  | 1 => "usaspending"
  | 2 => "edgar_sec"
  | 3 => "sba_data"

def outcomeAt (o : AdapterOutcomes) : Fin 4 → Except String SearchResult
  | 0 => o.sam
  | 1 => o.usa
  | 2 => o.edgar
  | 3 => o.sba

/-- The per-business result dict. The Python code builds two shapes: the
dispatch engine fills business_name, location and datasets_searched; the
defensive handler of process_businesses fills business_name and error.
Absent keys are none. -/
structure BusinessResults where
  business_name : Option String
  location : Option LocationInfo
  datasets_searched : Option (List SearchResult)
  error : Option String
deriving DecidableEq, Repr

/-- search_business_across_datasets: runs the four adapter closures in fixed
order, isolating each failure, and collects the envelopes. -/
def search_business_across_datasets (info : BusinessInfo) (run : AdapterOutcomes) :
    BusinessResults :=
  { business_name := some (info.business_name.getD ""),
    location := some { city := info.city, state := info.state, zip := info.zip },
    datasets_searched := some
      [handleDispatch "sam_gov" run.sam,
       handleDispatch "usaspending" run.usa,
       handleDispatch "edgar_sec" run.edgar,
       handleDispatch "sba_data" run.sba],
    error := none }

/-- The external world one business dispatch interacts with: the credential
from the environment and one HTTP exchange per networked source. -/
structure HttpWorld where
  samApiKey : Option String
  samHttp : Except String SamResp
  usaHttp : Except String UsaResp
  edgarHttp : Except String EdgarResp

/-- The four adapter closures built by search_business_across_datasets,
applied to one world. The adapters catch internally, so none of them raises. -/
def runAdapters (info : BusinessInfo) (w : HttpWorld) : AdapterOutcomes :=
  let business_name := info.business_name.getD ""
  let location_info : LocationInfo :=
    { city := info.city, state := info.state, zip := info.zip }
  { sam := .ok (search_sam_gov w.samApiKey business_name (some location_info) w.samHttp).1,
    usa := .ok (search_usaspending business_name w.usaHttp).1,
    edgar := .ok (search_edgar_sec business_name w.edgarHttp).1,
    sba := .ok (search_sba_data business_name (some location_info)).1 }

/-! ### Aggregation pipeline (process_businesses) -/

/-- The degenerate record appended when search_business_across_datasets itself
raises for one business. -/
def degenerateRecord (b : BusinessInfo) (e : String) : BusinessResults :=
  { business_name := b.business_name,
    location := none,
    datasets_searched := none,
    error := some e }

/-- process_businesses: one record per input business, in input order; a
raised per-business failure is replaced by the degenerate record. The step
function models the call to search_business_across_datasets, which may in
principle raise (the defensive except branch of the loop). -/
def process_businesses (step : BusinessInfo → Except String BusinessResults)
    (businesses : List BusinessInfo) : List BusinessResults :=
  businesses.map (fun b =>
    match step b with
    | .ok result => result
    | .error e => degenerateRecord b e)

/-! ### CSV loading (read_business_csv) and the main flow -/

/-- A parsed tabular input file: its column names and its rows. -/
structure CsvFile where
  columns : List String
  rows : List BusinessInfo
deriving DecidableEq, Repr

/-- read_business_csv: a file that fails to parse, or whose columns lack
business_name, is reported (second component carries the logged error
message) and yields an empty business list. The code raises ValueError and
catches it in the same function, returning the empty list. -/
def read_business_csv (file : Except String CsvFile) :
    List BusinessInfo × Option String :=
  match file with
  | .error e => ([], some e)
  | .ok f =>
    if f.columns.contains "business_name" then (f.rows, none)
    else ([], some "CSV must contain business_name column")

/-- The processing part of main: businesses are processed only when the
loaded list is non-empty. -/
def mainRun (file : Except String CsvFile)
    (step : BusinessInfo → Except String BusinessResults) : List BusinessResults :=
  let businesses := (read_business_csv file).1
  if businesses.isEmpty then [] else process_businesses step businesses

/-! ## Spec-side predicates used in theorem statements -/

/-- The substring relation that Python membership on strings tests:
the needle occurs contiguously inside the hay. -/
def SubstrOf (needle hay : List Char) : Prop :=
  ∃ pre suf, hay = pre ++ needle ++ suf

/-- The amended payload-presence invariant: the data field is None exactly
when the status is not_found or API key required. -/
def dataPresenceInv (r : SearchResult) : Prop :=
  r.data = none ↔ (r.status = "not_found" ∨ r.status = "API key required")

/-! ## Helper lemmas: every branch of an adapter names its own source -/

theorem search_sam_gov_source (k : Option String) (n : String)
    (l : Option LocationInfo) (h : Except String SamResp) :
    (search_sam_gov k n l h).1.source = "SAM.gov" := by
  unfold search_sam_gov
  by_cases hk : k.getD "" = ""
  · simp [hk]
  · cases h with
    | error e => simp [hk]
    | ok resp =>
      by_cases h200 : resp.status_code = 200
      · cases hed : resp.entityData <;> simp [hk, h200, hed]
      · simp [hk, h200]

theorem search_usaspending_source (n : String) (h : Except String UsaResp) :
    (search_usaspending n h).1.source = "USAspending.gov" := by
  unfold search_usaspending
  cases h with
  | error e => simp
  | ok resp =>
    by_cases h200 : resp.status_code = 200
    · cases hres : resp.results <;> simp [h200, hres]
    · simp [h200]

theorem search_edgar_sec_source (n : String) (h : Except String EdgarResp) :
    (search_edgar_sec n h).1.source = "SEC EDGAR" := by
  unfold search_edgar_sec
  cases h with
  | error e => simp
  | ok resp =>
    by_cases h200 : resp.status_code = 200
    · cases hms : sortMatches (edgarMatches n resp.companies) <;> simp [h200, hms]
    · simp [h200]

theorem search_sba_data_source (n : String) (l : Option LocationInfo) :
    (search_sba_data n l).1.source = "SBA Data" := rfl

/-! ## C7 -/

/-- C7: with no EntityRegistry credential configured in the environment, the
search_sam_gov adapter returns the RequiresCredential envelope and issues
zero network calls, for every business name, location and HTTP world. -/
theorem sam_gov_requires_credential_no_network
    (business_name : String) (location_info : Option LocationInfo)
    (http : Except String SamResp) :
    search_sam_gov none business_name location_info http =
      ({ source := "SAM.gov", status := "API key required", data := none }, 0) ∧
    statusClass "API key required" = some .RequiresCredential ∧
    sourceClass "SAM.gov" = some .EntityRegistry :=
  ⟨rfl, rfl, rfl⟩

/-! ## C8 -/

/-- C8: search_sba_data always returns the offline-processing stub envelope
whose payload enumerates the bulk datasets a human operator must fetch, and
issues zero network calls, for every input. -/
theorem sba_offline_stub_no_network
    (business_name : String) (location_info : Option LocationInfo) :
    search_sba_data business_name location_info =
      ({ source := "SBA Data", status := "requires_csv_processing",
         data := some (.sbaData sbaNote sbaDatasets) }, 0) ∧
    statusClass "requires_csv_processing" = some .RequiresOfflineProcessing ∧
    sbaDatasets.length = 5 ∧ sbaDatasets ≠ [] :=
  ⟨rfl, rfl, rfl, by decide⟩

/-! ## C2 -/

/-- C2: process_businesses returns exactly one record per input identity: the
output length equals the input length, and the record at each position i is
the one produced for the input at position i (order preserved), whether the
per-business step returned normally or raised. -/
theorem process_businesses_one_to_one
    (step : BusinessInfo → Except String BusinessResults)
    (businesses : List BusinessInfo) :
    (process_businesses step businesses).length = businesses.length ∧
    ∀ i : Nat, ∀ hi : i < businesses.length,
      (process_businesses step businesses).get
          ⟨i, by simpa [process_businesses] using hi⟩ =
        match step (businesses.get ⟨i, hi⟩) with
        | .ok result => result
        | .error e => degenerateRecord (businesses.get ⟨i, hi⟩) e := by
  constructor
  · simp [process_businesses]
  · intro i hi
    simp [process_businesses]

/-! ## C9 -/

/-- C9: an input file whose columns lack the mandatory business_name column
makes read_business_csv report the error message and yield the empty business
list, and the main flow then processes no businesses at all. -/
theorem missing_business_name_column_hard_error
    (f : CsvFile) (step : BusinessInfo → Except String BusinessResults)
    (hcol : "business_name" ∉ f.columns) :
    read_business_csv (.ok f) =
      ([], some "CSV must contain business_name column") ∧
    mainRun (.ok f) step = [] := by
  constructor
  · simp [read_business_csv, hcol]
  · simp [mainRun, read_business_csv, hcol]

theorem missing_business_name_column_hard_error_witness :
    read_business_csv
        (.ok { columns := ["name", "city"],
               rows := [{ business_name := some "Acme Rockets",
                          city := none, state := none, zip := none }] }) =
      ([], some "CSV must contain business_name column") ∧
    mainRun
        (.ok { columns := ["name", "city"],
               rows := [{ business_name := some "Acme Rockets",
                          city := none, state := none, zip := none }] })
        (fun _ => .error "boom") = [] :=
  missing_business_name_column_hard_error _ _ (by decide)

/-! ## C10 -/

/-- C10: an HTTP reply with any status code other than 200 makes the
SpendingRecords and PublicFilings adapters return a NotFound envelope with a
None payload, and an error envelope only ever arises from a raised
exception. -/
theorem non_200_yields_not_found
    (business_name : String) (usaResp : UsaResp) (edgarResp : EdgarResp)
    (husa : usaResp.status_code ≠ 200) (hedg : edgarResp.status_code ≠ 200) :
    (search_usaspending business_name (.ok usaResp)).1 =
      { source := "USAspending.gov", status := "not_found", data := none } ∧
    (search_edgar_sec business_name (.ok edgarResp)).1 =
      { source := "SEC EDGAR", status := "not_found", data := none } ∧
    statusClass "not_found" = some .NotFound ∧
    (∀ http : Except String UsaResp,
      (search_usaspending business_name http).1.status = "error" →
        ∃ e, http = .error e) ∧
    (∀ http : Except String EdgarResp,
      (search_edgar_sec business_name http).1.status = "error" →
        ∃ e, http = .error e) := by
  refine ⟨?_, ?_, rfl, ?_, ?_⟩
  · simp [search_usaspending, husa]
  · simp [search_edgar_sec, hedg]
  · intro http h
    match http with
    | .error e => exact ⟨e, rfl⟩
    | .ok r =>
      exfalso
      by_cases h200 : r.status_code = 200
      · cases hres : r.results <;> simp [search_usaspending, h200, hres] at h
      · simp [search_usaspending, h200] at h
  · intro http h
    match http with
    | .error e => exact ⟨e, rfl⟩
    | .ok r =>
      exfalso
      by_cases h200 : r.status_code = 200
      · cases hms : sortMatches (edgarMatches business_name r.companies) <;>
          simp [search_edgar_sec, h200, hms] at h
      · simp [search_edgar_sec, h200] at h

theorem non_200_yields_not_found_witness :
    (search_usaspending "Acme Rockets"
        (.ok { status_code := 404, results := [] })).1 =
      { source := "USAspending.gov", status := "not_found", data := none } ∧
    (search_edgar_sec "Acme Rockets"
        (.ok { status_code := 500, companies := [] })).1 =
      { source := "SEC EDGAR", status := "not_found", data := none } :=
  ⟨(non_200_yields_not_found "Acme Rockets"
      { status_code := 404, results := [] }
      { status_code := 500, companies := [] } (by decide) (by decide)).1,
   (non_200_yields_not_found "Acme Rockets"
      { status_code := 404, results := [] }
      { status_code := 500, companies := [] } (by decide) (by decide)).2.1⟩

/-! ## C6 -/

/-- C6: on a 200 reply carrying a non-empty award list, the SpendingRecords
adapter reports total_awards as the count of all returned awards and
total_amount as the sum of the award amounts of all returned awards, while
the exposed awards list is only the first five entries of the result list;
the outbound request asks the source to sort by award amount descending. -/
theorem usaspending_totals_over_all_awards
    (business_name : String) (resp : UsaResp)
    (h200 : resp.status_code = 200) (hne : resp.results ≠ []) :
    (search_usaspending business_name (.ok resp)).1 =
      { source := "USAspending.gov", status := "found",
        data := some (.usaData resp.results.length
          ((resp.results.map (fun a => a.awardAmount.getD 0)).sum)
          ((resp.results.map mkAwardOut).take 5)) } ∧
    (usaspendingRequest business_name).sort = "Award Amount" ∧
    (usaspendingRequest business_name).order = "desc" ∧
    ((resp.results.map mkAwardOut).take 5).length ≤ 5 := by
  refine ⟨?_, rfl, rfl, ?_⟩
  · rcases hres : resp.results with _ | ⟨a, as⟩
    · exact absurd hres hne
    · simp [search_usaspending, h200, hres]
  · exact List.length_take_le 5 (resp.results.map mkAwardOut)

theorem usaspending_totals_over_all_awards_witness :
    (search_usaspending "Acme Rockets"
        (.ok { status_code := 200,
               results := [
                 { awardId := some "A1", recipientName := some "Acme Rockets",
                   awardAmount := some 70, awardType := some "A",
                   startDate := none },
                 { awardId := some "A2", recipientName := some "Acme Rockets",
                   awardAmount := none, awardType := some "B",
                   startDate := none }] })).1.data =
      some (.usaData 2 70
        [{ award_id := some "A1", recipient_name := some "Acme Rockets",
           amount := 70, type := some "A", start_date := none },
         { award_id := some "A2", recipient_name := some "Acme Rockets",
           amount := 0, type := some "B", start_date := none }]) := by
  rw [(usaspending_totals_over_all_awards "Acme Rockets" _ rfl (by decide)).1]
  decide

/-! ## C4 -/

/-- C4 as stated fails on the code: the SmallBusinessDatasets stub returns an
envelope whose data field is non-None while its status is
requires_csv_processing, not found. -/
theorem payload_iff_found_counterexample :
    ¬ (((search_sba_data "Acme Rockets" none).1.data ≠ none) ↔
        (search_sba_data "Acme Rockets" none).1.status = "found") := by
  decide

/-- C4 amended: for every envelope produced by any of the four adapters or by
the dispatch-level catch, the data field is None exactly when the status is
not_found or API key required; found, error and requires_csv_processing
envelopes carry non-None data (the error branches store the exception text
there, the offline stub its dataset note). -/
theorem payload_presence_amended :
    (∀ (k : Option String) (n : String) (l : Option LocationInfo)
        (h : Except String SamResp), dataPresenceInv (search_sam_gov k n l h).1) ∧
    (∀ (n : String) (h : Except String UsaResp),
        dataPresenceInv (search_usaspending n h).1) ∧
    (∀ (n : String) (h : Except String EdgarResp),
        dataPresenceInv (search_edgar_sec n h).1) ∧
    (∀ (n : String) (l : Option LocationInfo),
        dataPresenceInv (search_sba_data n l).1) ∧
    (∀ (dataset_name e : String),
        dataPresenceInv (handleDispatch dataset_name (.error e))) := by
  refine ⟨?_, ?_, ?_, ?_, ?_⟩
  · intro k n l h
    unfold search_sam_gov dataPresenceInv
    by_cases hk : k.getD "" = ""
    · simp [hk]
    · cases h with
      | error e => simp [hk]
      | ok resp =>
        by_cases h200 : resp.status_code = 200
        · cases hed : resp.entityData <;> simp [hk, h200, hed]
        · simp [hk, h200]
  · intro n h
    unfold search_usaspending dataPresenceInv
    cases h with
    | error e => simp
    | ok resp =>
      by_cases h200 : resp.status_code = 200
      · cases hres : resp.results <;> simp [h200, hres]
      · simp [h200]
  · intro n h
    unfold search_edgar_sec dataPresenceInv
    cases h with
    | error e => simp
    | ok resp =>
      by_cases h200 : resp.status_code = 200
      · cases hms : sortMatches (edgarMatches n resp.companies) <;>
          simp [h200, hms]
      · simp [h200]
  · intro n l
    simp [search_sba_data, dataPresenceInv]
  · intro dataset_name e
    simp [handleDispatch, dataPresenceInv]

/-! ## C1 -/

/-- C1: the dispatch engine never raises past its boundary: for every
business and every combination of adapter outcomes it returns a record of
exactly four envelopes, and the envelope at each position is the error
envelope carrying the raised message when that adapter raised, and the dict
returned by that same adapter when it returned — in either case independent
of what the other adapters did. -/
theorem dispatch_fault_isolation
    (info : BusinessInfo) (o : AdapterOutcomes) :
    ∃ envs : List SearchResult,
      (search_business_across_datasets info o).datasets_searched = some envs ∧
      envs.length = 4 ∧
      ∀ i : Fin 4,
        (∀ e, outcomeAt o i = .error e →
          envs[i.val]? = some { source := datasetNames i, status := "error",
                                data := some (.errText e) }) ∧
        (∀ r, outcomeAt o i = .ok r → envs[i.val]? = some r) := by
  refine ⟨_, rfl, rfl, ?_⟩
  intro i
  constructor
  · intro e he
    fin_cases i <;>
      simp_all [outcomeAt, datasetNames, handleDispatch]
  · intro r hr
    fin_cases i <;>
      simp_all [outcomeAt, datasetNames, handleDispatch]

/-! ## C3 -/

/-- C3: for any adapter outcomes in which each component is either a raise or
a dict actually returned by the corresponding adapter, the record carries
exactly four envelopes whose sources are, in order, EntityRegistry,
SpendingRecords, PublicFilings and SmallBusinessDatasets — regardless of
per-adapter success or failure. -/
theorem dispatch_envelope_count_and_order
    (info : BusinessInfo) (o : AdapterOutcomes)
    (hsam : (∃ e, o.sam = .error e) ∨
      ∃ k n l h, o.sam = .ok (search_sam_gov k n l h).1)
    (husa : (∃ e, o.usa = .error e) ∨
      ∃ n h, o.usa = .ok (search_usaspending n h).1)
    (hedg : (∃ e, o.edgar = .error e) ∨
      ∃ n h, o.edgar = .ok (search_edgar_sec n h).1)
    (hsba : (∃ e, o.sba = .error e) ∨
      ∃ n l, o.sba = .ok (search_sba_data n l).1) :
    ∃ envs : List SearchResult,
      (search_business_across_datasets info o).datasets_searched = some envs ∧
      envs.length = 4 ∧
      envs.map (fun r => sourceClass r.source) =
        [some .EntityRegistry, some .SpendingRecords, some .PublicFilings,
         some .SmallBusinessDatasets] := by
  refine ⟨_, rfl, rfl, ?_⟩
  simp only [List.map_cons, List.map_nil, List.cons.injEq, and_true]
  refine ⟨?_, ?_, ?_, ?_⟩
  · rcases hsam with ⟨e, he⟩ | ⟨k, n, l, h, he⟩ <;>
      simp [he, handleDispatch, search_sam_gov_source, sourceClass]
  · rcases husa with ⟨e, he⟩ | ⟨n, h, he⟩ <;>
      simp [he, handleDispatch, search_usaspending_source, sourceClass]
  · rcases hedg with ⟨e, he⟩ | ⟨n, h, he⟩ <;>
      simp [he, handleDispatch, search_edgar_sec_source, sourceClass]
  · rcases hsba with ⟨e, he⟩ | ⟨n, l, he⟩ <;>
      simp [he, handleDispatch, search_sba_data_source, sourceClass]

theorem dispatch_envelope_count_and_order_witness :
    ∃ envs : List SearchResult,
      (search_business_across_datasets
          { business_name := some "Acme Rockets", city := none,
            state := some "CA", zip := none }
          { sam := .error "sam boom", usa := .error "usa boom",
            edgar := .error "edgar boom",
            sba := .ok (search_sba_data "Acme Rockets" none).1 }).datasets_searched
        = some envs ∧
      envs.length = 4 ∧
      envs.map (fun r => sourceClass r.source) =
        [some .EntityRegistry, some .SpendingRecords, some .PublicFilings,
         some .SmallBusinessDatasets] :=
  dispatch_envelope_count_and_order _ _
    (Or.inl ⟨_, rfl⟩) (Or.inl ⟨_, rfl⟩) (Or.inl ⟨_, rfl⟩)
    (Or.inr ⟨"Acme Rockets", none, rfl⟩)

/-! ## Certification of the string machinery against its mathematical meaning -/

theorem leadsChars_iff (n : List Char) : ∀ h : List Char,
    leadsChars n h = true ↔ ∃ t, h = n ++ t := by
  induction n with
  | nil => intro h; simp [leadsChars]
  | cons a as ih =>
    intro h
    cases h with
    | nil => simp [leadsChars]
    | cons b bs =>
      simp only [leadsChars, Bool.and_eq_true, beq_iff_eq, ih, List.cons_append,
        List.cons.injEq]
      constructor
      · rintro ⟨rfl, t, rfl⟩; exact ⟨t, rfl, rfl⟩
      · rintro ⟨t, rfl, rfl⟩; exact ⟨rfl, t, rfl⟩

theorem pyIn_iff (n : List Char) : ∀ h : List Char,
    pyIn n h = true ↔ SubstrOf n h := by
  intro h
  induction h with
  | nil =>
    simp only [pyIn, List.isEmpty_iff, SubstrOf]
    constructor
    · rintro rfl; exact ⟨[], [], rfl⟩
    · rintro ⟨pre, suf, hps⟩
      rcases List.append_eq_nil.mp (List.append_eq_nil.mp hps.symm).1 with ⟨-, h2⟩
      exact h2
  | cons c rest ih =>
    simp only [pyIn, Bool.or_eq_true, leadsChars_iff, ih, SubstrOf]
    constructor
    · rintro (⟨t, ht⟩ | ⟨pre, suf, hps⟩)
      · exact ⟨[], t, by simp [ht]⟩
      · exact ⟨c :: pre, suf, by simp [hps]⟩
    · rintro ⟨pre, suf, hps⟩
      cases pre with
      | nil => exact Or.inl ⟨suf, by simpa using hps⟩
      | cons p ps =>
        right
        refine ⟨ps, suf, ?_⟩
        have hps' : c :: rest = p :: (ps ++ n ++ suf) := by simpa using hps
        simpa using (List.cons.injEq c rest p (ps ++ n ++ suf)).mp hps' |>.2

theorem interSize_eq_card (xs ys : List (List Char)) :
    interSize xs ys = ((xs.toFinset ∩ ys.toFinset).card) := by
  have hnd : (xs.dedup.filter (fun w => ys.contains w)).Nodup :=
    xs.nodup_dedup.filter _
  have hset : (xs.dedup.filter (fun w => ys.contains w)).toFinset =
      xs.toFinset ∩ ys.toFinset := by
    ext w
    simp [List.mem_filter, List.mem_dedup, List.mem_toFinset, Finset.mem_inter,
      List.contains, List.elem_iff]
  rw [interSize, ← List.toFinset_card_of_nodup hnd, hset]

/-- The sort of search_edgar_sec leaves the matches pairwise descending by
match_score. -/
theorem sortMatches_sorted (ms : List MatchEntry) :
    (sortMatches ms).Sorted (fun a b => b.match_score ≤ a.match_score) := by
  have h := @List.sorted_mergeSort MatchEntry
    (fun a b : MatchEntry => decide (b.match_score ≤ a.match_score))
    (fun a b c h1 h2 =>
      decide_eq_true (Nat.le_trans (of_decide_eq_true h2) (of_decide_eq_true h1)))
    (fun a b => by
      rcases Nat.le_total b.match_score a.match_score with hab | hab <;> simp [hab])
    ms
  exact h.imp (fun hab => of_decide_eq_true hab)

/-- The sort of search_edgar_sec is a permutation of the matches list. -/
theorem sortMatches_perm (ms : List MatchEntry) : List.Perm (sortMatches ms) ms :=
  List.mergeSort_perm ms _

/-- The match condition holds exactly when one lowercased name occurs as a
substring of the other. -/
theorem edgarCond_iff (s t : List Char) :
    edgarCond s t = true ↔ (SubstrOf s t ∨ SubstrOf t s) := by
  simp [edgarCond, Bool.or_eq_true, pyIn_iff]

/-! ## C5 -/

/-- C5: for every search name and issuer directory, a company yields a match
entry exactly when one lowercased name contains the other as a substring
(case-insensitive bidirectional match); the match score of an entry is the
cardinality of the intersection of the whitespace-tokenized word sets of the
two lowercased names; whenever any candidate matches under a 200 reply the
adapter returns the match count, a best match maximising the score, and the
matches sorted descending by score truncated to the top 3; and on the
directory entry titled Acme Rockets Inc with search Acme Rockets the score
is 2 and that candidate appears in all_matches. -/
theorem publicFilings_matching_spec :
    (∀ (business_name : String) (companies : List Company) (m : MatchEntry),
        m ∈ edgarMatches business_name companies ↔
          ∃ c ∈ companies,
            (SubstrOf (lowerChars business_name.data)
                (lowerChars (c.title.getD "").data) ∨
             SubstrOf (lowerChars (c.title.getD "").data)
                (lowerChars business_name.data)) ∧
            m = mkMatchEntry (lowerChars business_name.data) c) ∧
    (∀ (search_name : List Char) (c : Company),
        (mkMatchEntry search_name c).match_score =
          ((pySplit search_name).toFinset ∩
           (pySplit (lowerChars (c.title.getD "").data)).toFinset).card) ∧
    (∀ (business_name : String) (resp : EdgarResp),
        resp.status_code = 200 →
        edgarMatches business_name resp.companies ≠ [] →
        ∃ best rest,
          sortMatches (edgarMatches business_name resp.companies) = best :: rest ∧
          (search_edgar_sec business_name (.ok resp)).1 =
            { source := "SEC EDGAR", status := "found",
              data := some (.edgarData
                (edgarMatches business_name resp.companies).length best
                ((best :: rest).take 3)) } ∧
          (best :: rest).Sorted (fun a b => b.match_score ≤ a.match_score) ∧
          List.Perm (best :: rest) (edgarMatches business_name resp.companies) ∧
          ∀ m ∈ edgarMatches business_name resp.companies,
            m.match_score ≤ best.match_score) ∧
    ((mkMatchEntry (lowerChars "Acme Rockets".data)
        { title := some "Acme Rockets Inc", ticker := none,
          cik_str := none }).match_score = 2 ∧
     ∃ all_matches,
       (search_edgar_sec "Acme Rockets"
           (.ok { status_code := 200,
                  companies := [{ title := some "Acme Rockets Inc",
                                  ticker := none, cik_str := none }] })).1 =
         { source := "SEC EDGAR", status := "found",
           data := some (.edgarData 1
             (mkMatchEntry (lowerChars "Acme Rockets".data)
               { title := some "Acme Rockets Inc", ticker := none,
                 cik_str := none }) all_matches) } ∧
       mkMatchEntry (lowerChars "Acme Rockets".data)
           { title := some "Acme Rockets Inc", ticker := none, cik_str := none }
         ∈ all_matches) := by
  refine ⟨?_, ?_, ?_, ?_⟩
  · intro business_name companies m
    simp only [edgarMatches, List.mem_filterMap]
    constructor
    · rintro ⟨c, hc, hm⟩
      split at hm
      case isTrue hcond =>
        exact ⟨c, hc, (edgarCond_iff _ _).mp hcond, (Option.some_inj.mp hm).symm⟩
      case isFalse hcond => cases hm
    · rintro ⟨c, hc, hcond, rfl⟩
      have hcond' : edgarCond (lowerChars business_name.data)
          (lowerChars (c.title.getD "").data) = true :=
        (edgarCond_iff _ _).mpr hcond
      exact ⟨c, hc, by simp [hcond']⟩
  · intro search_name c
    simp [mkMatchEntry, interSize_eq_card]
  · intro business_name resp h200 hne
    have hperm := sortMatches_perm (edgarMatches business_name resp.companies)
    have hsorted := sortMatches_sorted (edgarMatches business_name resp.companies)
    rcases hs : sortMatches (edgarMatches business_name resp.companies) with
      _ | ⟨best, rest⟩
    · rw [hs] at hperm
      exact absurd (hperm.symm.eq_nil) hne
    · rw [hs] at hperm hsorted
      refine ⟨best, rest, rfl, ?_, hsorted, hperm, ?_⟩
      · have hlen := hperm.length_eq
        simp [search_edgar_sec, h200, hs, ← hlen]
      · intro m hm
        have hmem : m ∈ best :: rest := hperm.mem_iff.mpr hm
        rcases List.mem_cons.mp hmem with rfl | hmm
        · exact Nat.le_refl _
        · exact (List.sorted_cons.mp hsorted).1 m hmm
  · constructor
    · decide
    · have hm : edgarMatches "Acme Rockets"
          [{ title := some "Acme Rockets Inc", ticker := none, cik_str := none }] =
          [mkMatchEntry (lowerChars "Acme Rockets".data)
            { title := some "Acme Rockets Inc", ticker := none, cik_str := none }] := by
        decide
      refine ⟨[mkMatchEntry (lowerChars "Acme Rockets".data)
        { title := some "Acme Rockets Inc", ticker := none, cik_str := none }],
        ?_, by simp⟩
      simp [search_edgar_sec, sortMatches, hm, List.mergeSort_singleton]

end BusinessSearchTool
